import Mathlib

/-!
Verification of the NATS client connection engine (`src/client.rs`).

The client state (write side, read side, server info, shutdown flag) and every
operation that touches it (`publish`, `try_publish`, `subscribe`,
`unsubscribe`, `flush`, `close`, `reconnect`, the heartbeat/flusher branches
and the dispatcher branches) are embedded as executable Lean functions.
I/O outcomes that the real code observes from the operating system (encode
failures, flush failures, lock contention, receive events) are passed in as
explicit parameters, so each function is a pure transcription of the
corresponding Rust control flow.
-/

namespace NatsClient

/-- Error kinds surfaced by the client, mirroring the `std::io::ErrorKind`
values constructed in `client.rs`.  `bufferFull` stands for the `Other`-kind
error carrying the message "the disconnect buffer is full"; `otherErr` models
an arbitrary injected I/O failure from the writer or stream. -/
inductive IOErrorKind where
  | invalidInput
  | notConnected
  | bufferFull
  | connectionReset
  | otherErr
deriving DecidableEq, Repr

/-- Reconnect buffer (`struct Buffer` in `client.rs`): a fixed byte slice with
`written` and `flushed` counters.  Bytes are modelled as `Nat`. -/
structure Buffer where
  bytes : List Nat
  written : Nat
  flushed : Nat
deriving DecidableEq, Repr

/-- Rust `Buffer::new(size)`: a zeroed slice of the given size, both counters 0. -/
def Buffer.new (size : Nat) : Buffer :=
  ⟨List.replicate size 0, 0, 0⟩

/-- Rust `<Buffer as Write>::write`: if the input does not fit into the free space
`bytes.len() - written`, saturate (`written := bytes.len()`) and fail with the
buffer-full error; otherwise copy the input at `written` and advance it. -/
def Buffer.writeB (b : Buffer) (buf : List Nat) : Buffer × Except IOErrorKind Nat :=
  let n := buf.length
  if b.bytes.length - b.written < n then
    ({ b with written := b.bytes.length }, .error .bufferFull)
  else
    ({ b with
        bytes := b.bytes.take b.written ++ buf ++ b.bytes.drop (b.written + n),
        written := b.written + n },
      .ok n)

/-- Rust `<Buffer as Write>::flush`: commit the partial frame, `flushed := written`.
The Rust implementation always returns `Ok(())`. -/
def Buffer.flushB (b : Buffer) : Buffer :=
  { b with flushed := b.written }

/-- Rust `Buffer::clear`: return the flushed prefix `bytes[..flushed]` and reset
both counters to 0. -/
def Buffer.clearB (b : Buffer) : List Nat × Buffer :=
  (b.bytes.take b.flushed, { b with written := 0, flushed := 0 })

/-- Structural invariant of the reconnect buffer: `flushed ≤ written ≤ cap`,
where the capacity is the length of the byte slice. -/
def Buffer.wf (b : Buffer) : Prop :=
  b.flushed ≤ b.written ∧ b.written ≤ b.bytes.length

instance (b : Buffer) : Decidable b.wf := by
  unfold Buffer.wf; infer_instance

/-- One observable operation on the reconnect buffer. -/
inductive BufAct where
  | writeA (buf : List Nat)
  | flushA
  | clearA
deriving DecidableEq, Repr

/-- Apply one buffer operation (keeping only the buffer). -/
def Buffer.applyAct (b : Buffer) : BufAct → Buffer
  | .writeA buf => (b.writeB buf).1
  | .flushA => b.flushB
  | .clearA => (b.clearB).2

/-- Apply a sequence of buffer operations. -/
def Buffer.applyActs (b : Buffer) : List BufAct → Buffer
  | [] => b
  | a :: rest => (b.applyAct a).applyActs rest

lemma Buffer.writeB_wf (b : Buffer) (buf : List Nat) (h : b.wf) :
    ((b.writeB buf).1).wf := by
  rcases h with ⟨h1, h2⟩
  unfold Buffer.writeB
  dsimp only
  split
  · exact ⟨le_trans h1 h2, le_refl _⟩
  · rename_i hfit
    constructor
    · exact le_trans h1 (Nat.le_add_right _ _)
    · have hn : buf.length ≤ b.bytes.length - b.written := le_of_not_lt hfit
      simp only [List.length_append, List.length_take, List.length_drop]
      omega

lemma Buffer.flushB_wf (b : Buffer) (h : b.wf) : (b.flushB).wf := by
  rcases h with ⟨_, h2⟩
  exact ⟨le_refl _, h2⟩

lemma Buffer.clearB_wf (b : Buffer) : ((b.clearB).2).wf :=
  ⟨le_refl _, Nat.zero_le _⟩

lemma Buffer.applyAct_wf (b : Buffer) (a : BufAct) (h : b.wf) :
    (b.applyAct a).wf := by
  cases a with
  | writeA buf => exact b.writeB_wf buf h
  | flushA => exact b.flushB_wf h
  | clearA => exact b.clearB_wf

lemma Buffer.applyActs_wf (acts : List BufAct) :
    ∀ b : Buffer, b.wf → (b.applyActs acts).wf := by
  induction acts with
  | nil => intro b h; exact h
  | cons a rest ih =>
      intro b h
      exact ih _ (b.applyAct_wf a h)

lemma Buffer.new_wf (size : Nat) : (Buffer.new size).wf :=
  ⟨le_refl _, Nat.zero_le _⟩

/-- C4: the Reconnect Buffer satisfies `0 ≤ flushed ≤ written ≤ cap` at every
observable moment (after any sequence of write/flush/clear operations starting
from a fresh buffer); a write of a frame that does not fit sets
`written = cap` and fails with the buffer-full error; after such a failing
write every subsequent non-empty write fails until `clear` resets both
counters to 0. -/
theorem claim_C4_buffer_invariant :
    (∀ (size : Nat) (acts : List BufAct), ((Buffer.new size).applyActs acts).wf) ∧
    (∀ (b : Buffer) (buf : List Nat),
      b.bytes.length - b.written < buf.length →
        ((b.writeB buf).1.written = b.bytes.length ∧
         (b.writeB buf).2 = .error .bufferFull)) ∧
    (∀ (b : Buffer) (buf : List Nat),
      b.written = b.bytes.length → buf ≠ [] →
        (b.writeB buf).2 = .error .bufferFull ∧
        (b.writeB buf).1.written = b.bytes.length) ∧
    (∀ b : Buffer, (b.clearB).2.written = 0 ∧ (b.clearB).2.flushed = 0) := by
  refine ⟨?_, ?_, ?_, ?_⟩
  · intro size acts
    exact Buffer.applyActs_wf acts _ (Buffer.new_wf size)
  · intro b buf h
    unfold Buffer.writeB
    simp only [if_pos h]
    exact ⟨trivial, trivial⟩
  · intro b buf hsat hne
    have h : b.bytes.length - b.written < buf.length := by
      have hpos : 0 < buf.length := List.length_pos.mpr hne
      omega
    unfold Buffer.writeB
    simp only [if_pos h]
    exact ⟨trivial, trivial⟩
  · intro b
    exact ⟨rfl, rfl⟩

/-- Witness for C4 at concrete inputs: a fresh 2-byte buffer after writing
`[7]` and flushing is well-formed; a 1-byte buffer cannot hold a 2-byte frame
and saturates; a saturated 1-byte buffer rejects the non-empty write `[3]`;
clearing resets counters. -/
theorem claim_C4_buffer_invariant_witness :
    ((Buffer.new 2).applyActs [BufAct.writeA [7], BufAct.flushA]).wf ∧
    ((Buffer.new 1).writeB [5, 6]).1.written = 1 ∧
    ((Buffer.new 1).writeB [5, 6]).2 = .error .bufferFull ∧
    ((⟨[0], 1, 0⟩ : Buffer).writeB [3]).2 = .error .bufferFull ∧
    ((⟨[0], 1, 0⟩ : Buffer).clearB).2.written = 0 := by
  refine ⟨claim_C4_buffer_invariant.1 2 [BufAct.writeA [7], BufAct.flushA],
    (claim_C4_buffer_invariant.2.1 (Buffer.new 1) [5, 6] (by decide)).1,
    (claim_C4_buffer_invariant.2.1 (Buffer.new 1) [5, 6] (by decide)).2,
    (claim_C4_buffer_invariant.2.2.1 (⟨[0], 1, 0⟩ : Buffer) [3] (by decide) (by decide)).1,
    (claim_C4_buffer_invariant.2.2.2 (⟨[0], 1, 0⟩ : Buffer)).1⟩

/-- Server info snapshot; only the capability actually read by the core
(`server_info.headers`) is modelled. -/
structure ServerInfo where
  headers : Bool
deriving DecidableEq, Repr

/-- A registered subscription (`struct Subscription`), without its delivery
channel (which carries no state the claims mention). -/
structure Subscription where
  subject : String
  queueGroup : Option String
deriving DecidableEq, Repr

/-- A pending-PONG waiter: either a fresh one-shot sender created by `flush`
(identified by a number) or a clone of the flush-kicker pushed by the
heartbeat worker. -/
inductive Waiter where
  | oneshot (id : Nat)
  | kicker
deriving DecidableEq, Repr

/-- The active connection's `BufWriter`: `sent` are bytes already flushed to
the stream, `pend` is the in-memory buffer (`writer.buffer()` in Rust). -/
structure Writer where
  sent : List Nat
  pend : List Nat
deriving DecidableEq, Repr

/-- All bytes ever written into this writer, in order. -/
def Writer.contents (w : Writer) : List Nat :=
  w.sent ++ w.pend

/-- Append encoded bytes to the writer's in-memory buffer. -/
def Writer.app (w : Writer) (bs : List Nat) : Writer :=
  { w with pend := w.pend ++ bs }

/-- Rust `BufWriter::flush`: push the in-memory buffer to the stream. -/
def Writer.flushW (w : Writer) : Writer :=
  ⟨w.sent ++ w.pend, []⟩

/-- Rust `struct WriteState`: the active writer (absent while reconnecting or
closed), the reconnect buffer and the next subscription id. -/
structure WriteState where
  writer : Option Writer
  buffer : Buffer
  nextSid : Nat
deriving DecidableEq, Repr

/-- Rust `struct ReadState`: subscriptions keyed by SID, the pending-PONG queue
and the outstanding-ping counter.  `last_active` is a wall-clock instant; the
heartbeat's idleness comparison on it enters the model as an explicit
boolean input instead. -/
structure ReadState where
  subscriptions : List (Nat × Subscription)
  pongs : List Waiter
  pingsOut : Nat
deriving DecidableEq, Repr

/-- The shared client state guarded by the two mutexes, plus the server-info
cell and the shutdown flag.  Each operation below is a whole critical
section, matching the locking discipline of the source. -/
structure ClientState where
  write : WriteState
  read : ReadState
  serverInfo : ServerInfo
  shutdown : Bool
deriving DecidableEq, Repr

/-- State built by `Client::connect` before any worker runs: no writer, a
fresh reconnect buffer of the configured size, `next_sid = 1`, no
subscriptions, the pre-seeded initial PONG waiter, `pings_out = 0`, default
server info and shutdown unset. -/
def initState (reconnectBufferSize : Nat) : ClientState :=
  { write := { writer := none, buffer := Buffer.new reconnectBufferSize, nextSid := 1 }
    read := { subscriptions := [], pongs := [Waiter.oneshot 0], pingsOut := 0 }
    serverInfo := { headers := false }
    shutdown := false }

/-- Constant `BUF_CAPACITY` from `client.rs`. -/
def BUF_CAPACITY : Nat := 32 * 1024

/-- Constant `MAX_PINGS_OUT` from the heartbeat worker. -/
def MAX_PINGS_OUT : Nat := 2

/-- Modulus of the `u64` subscription counter. -/
def U64_MOD : Nat := 2 ^ 64

/-- Bytes of a string (one `Nat` per character). -/
def strB (s : String) : List Nat :=
  s.data.map Char.toNat

/-- Bytes of an optional string, tagged so that presence is visible. -/
def optStrB : Option String → List Nat
  | none => []
  | some s => 0 :: strB s

/-- Bytes of a header map, one `k: v\r\n` run per pair. -/
def headersB (hs : List (String × String)) : List Nat :=
  (hs.map (fun kv => strB kv.1 ++ [58] ++ strB kv.2 ++ [13, 10])).flatten

/-- Outbound frames (`ClientOp`).  Headers are modelled as a list of
key/value pairs. -/
inductive ClientOp where
  | pubOp (subject : String) (replyTo : Option String) (payload : List Nat)
  | hpubOp (subject : String) (replyTo : Option String) (payload : List Nat)
      (headers : List (String × String))
  | subOp (subject : String) (queueGroup : Option String) (sid : Nat)
  | unsubOp (sid : Nat) (maxMsgs : Option Nat)
  | pingOp
  | pongOp
deriving DecidableEq, Repr

/-- Modelled from the spec: the Codec (`encode(sink, op)`, section 6 of the
spec) is an external collaborator whose source is not under `src/`.  The
claims treat each frame's encoding only as an opaque byte sequence written
into the sink, so any concrete rendering serves; this one tags each op kind
and serializes its fields. -/
def encodeOp : ClientOp → List Nat
  | .pubOp s r p => 1 :: (strB s ++ optStrB r ++ [p.length] ++ p ++ [13, 10])
  | .hpubOp s r p hs => 2 :: (strB s ++ optStrB r ++ headersB hs ++ [p.length] ++ p ++ [13, 10])
  | .subOp s qg sid => 3 :: (strB s ++ optStrB qg ++ [sid, 13, 10])
  | .unsubOp sid mm =>
      4 :: sid :: ((match mm with | none => [] | some m => [m]) ++ [13, 10])
  | .pingOp => [5, 13, 10]
  | .pongOp => [6, 13, 10]

/-- Result of `publish`: success, an I/O error, or the `assert_eq!
(written, 0)` on the connected path firing (a panic in Rust). -/
inductive PubResult where
  | ok
  | err (e : IOErrorKind)
  | assertFail
deriving DecidableEq, Repr

/-- Result of `subscribe`. -/
inductive SubResult where
  | ok (sid : Nat)
  | err (e : IOErrorKind)
deriving DecidableEq, Repr

/-- Result of the unit-valued fallible operations. -/
inductive OpResult where
  | ok
  | err (e : IOErrorKind)
deriving DecidableEq, Repr

/-- The PUB or HPUB op `publish`/`try_publish` build from their arguments. -/
def mkPubOp (subject : String) (replyTo : Option String)
    (headers : Option (List (String × String))) (msg : List Nat) : ClientOp :=
  match headers with
  | some hs => .hpubOp subject replyTo msg hs
  | none => .pubOp subject replyTo msg

/-- Outcome of `publish`: the new state, the returned result, and whether the
flush-kicker was signalled. -/
structure PubOut where
  state : ClientState
  res : PubResult
  kicked : Bool
deriving DecidableEq, Repr

/-- Rust `Client::publish`.  `encRes` is the outcome the codec/writer reports for
the encode into the active writer (`none` = success). -/
def publishFn (c : ClientState) (subject : String) (replyTo : Option String)
    (headers : Option (List (String × String))) (msg : List Nat)
    (encRes : Option IOErrorKind) : PubOut :=
  if headers.isSome && !c.serverInfo.headers then
    ⟨c, .err .invalidInput, false⟩
  else if c.shutdown then
    ⟨c, .err .notConnected, false⟩
  else
    let op := mkPubOp subject replyTo headers msg
    match c.write.writer with
    | none =>
        let wr := c.write.buffer.writeB (encodeOp op)
        match wr.2 with
        | .error e => ⟨{ c with write.buffer := wr.1 }, .err e, false⟩
        | .ok _ => ⟨{ c with write.buffer := wr.1.flushB }, .ok, false⟩
    | some w =>
        if c.write.buffer.written ≠ 0 then ⟨c, .assertFail, false⟩
        else
          match encRes with
          | some e => ⟨{ c with write.writer := none, read.pongs := [] }, .err e, true⟩
          | none => ⟨{ c with write.writer := some (w.app (encodeOp op)) }, .ok, true⟩

/-- The conservative frame-size estimate computed by `try_publish`. -/
def estimateFn (subject : String) (replyTo : Option String)
    (headers : Option (List (String × String))) (msg : List Nat) : Nat :=
  1024 + subject.length + (match replyTo with | none => 0 | some r => r.length) +
    msg.length +
    (match headers with
     | none => 0
     | some hs => (hs.map (fun kv => kv.1.length + kv.2.length + 3)).sum)

/-- Outcome of `try_publish`: `res = none` models the `None` return. -/
structure TryPubOut where
  state : ClientState
  res : Option PubResult
  kicked : Bool
deriving DecidableEq, Repr

/-- Rust `Client::try_publish`.  `lockFree` is whether `try_lock` succeeds,
`encRes` the encode outcome on the active writer. -/
def tryPublishFn (c : ClientState) (subject : String) (replyTo : Option String)
    (headers : Option (List (String × String))) (msg : List Nat)
    (lockFree : Bool) (encRes : Option IOErrorKind) : TryPubOut :=
  if c.shutdown then ⟨c, some (.err .notConnected), false⟩
  else
    let op := mkPubOp subject replyTo headers msg
    if !lockFree then ⟨c, none, false⟩
    else
      match c.write.writer with
      | none =>
          let wr := c.write.buffer.writeB (encodeOp op)
          match wr.2 with
          | .error e => ⟨{ c with write.buffer := wr.1 }, some (.err e), false⟩
          | .ok _ => ⟨{ c with write.buffer := wr.1.flushB }, some .ok, false⟩
      | some w =>
          if BUF_CAPACITY - w.pend.length < estimateFn subject replyTo headers msg then
            ⟨c, none, false⟩
          else
            match encRes with
            | some e => ⟨{ c with write.writer := none, read.pongs := [] }, some (.err e), true⟩
            | none => ⟨{ c with write.writer := some (w.app (encodeOp op)) }, some .ok, true⟩

/-- Outcome of `subscribe`. -/
structure SubOut where
  state : ClientState
  res : SubResult
  kicked : Bool
deriving DecidableEq, Repr

/-- Rust `HashMap::insert` on the subscription table. -/
def assocInsert (sid : Nat) (sub : Subscription) (l : List (Nat × Subscription)) :
    List (Nat × Subscription) :=
  (sid, sub) :: l.filter (fun p => p.1 != sid)

/-- Rust `Client::subscribe`.  The encode of the SUB op is best-effort in the
source (`.ok()`), so its failure (`encOk = false`) only loses the bytes. -/
def subscribeFn (c : ClientState) (subject : String) (queueGroup : Option String)
    (encOk : Bool) : SubOut :=
  if c.shutdown then ⟨c, .err .notConnected, false⟩
  else
    let sid := c.write.nextSid
    let subs2 := assocInsert sid ⟨subject, queueGroup⟩ c.read.subscriptions
    match c.write.writer with
    | none =>
        ⟨{ c with
            write.nextSid := (c.write.nextSid + 1) % U64_MOD
            read.subscriptions := subs2 }, .ok sid, false⟩
    | some w =>
        let w2 := if encOk then w.app (encodeOp (.subOp subject queueGroup sid)) else w
        ⟨{ c with
            write.writer := some w2
            write.nextSid := (c.write.nextSid + 1) % U64_MOD
            read.subscriptions := subs2 }, .ok sid, true⟩

/-- Outcome of `unsubscribe`. -/
structure UnsubOut where
  state : ClientState
  res : OpResult
  kicked : Bool
deriving DecidableEq, Repr

/-- Membership test on the subscription table (`HashMap::remove` returning
whether the key was present). -/
def hasSub (l : List (Nat × Subscription)) (sid : Nat) : Bool :=
  l.any (fun p => p.1 == sid)

/-- Rust `Client::unsubscribe`.  Note: no shutdown check in the source; the UNSUB
encode error propagates to the caller with the writer kept. -/
def unsubscribeFn (c : ClientState) (sid : Nat) (encRes : Option IOErrorKind) :
    UnsubOut :=
  if !hasSub c.read.subscriptions sid then ⟨c, .ok, false⟩
  else
    let subs2 := c.read.subscriptions.filter (fun p => p.1 != sid)
    match c.write.writer with
    | none => ⟨{ c with read.subscriptions := subs2 }, .ok, false⟩
    | some w =>
        match encRes with
        | some e => ⟨{ c with read.subscriptions := subs2 }, .err e, false⟩
        | none =>
            ⟨{ c with
                read.subscriptions := subs2
                write.writer := some (w.app (encodeOp (.unsubOp sid none))) }, .ok, true⟩

/-- Outcome of the lock-holding first half of `flush`: the state after
enqueueing the waiter, the result of the PING write, the enqueued waiter, and
the write deadline that was set on the socket for the PING write. -/
structure FlushEnqOut where
  state : ClientState
  res : OpResult
  waiter : Option Waiter
  pingDeadline : Option Nat
deriving DecidableEq, Repr

/-- First half of `Client::flush(timeout)` (everything under the locks): if
shut down fail; if a writer is present set the write deadline to `timeout`,
encode and flush a PING (outcome `pingRes`; on failure the error propagates
with the writer kept), clear the deadline; then enqueue a fresh one-shot
waiter (id `wid`) on the pending-PONG queue. -/
def flushEnqFn (c : ClientState) (timeout : Nat) (wid : Nat)
    (pingRes : Option IOErrorKind) : FlushEnqOut :=
  if c.shutdown then ⟨c, .err .notConnected, none, none⟩
  else
    match c.write.writer with
    | none =>
        ⟨{ c with read.pongs := c.read.pongs ++ [Waiter.oneshot wid] }, .ok,
          some (Waiter.oneshot wid), none⟩
    | some w =>
        match pingRes with
        | some e => ⟨c, .err e, none, some timeout⟩
        | none =>
            ⟨{ c with
                write.writer := some ((w.app (encodeOp .pingOp)).flushW)
                read.pongs := c.read.pongs ++ [Waiter.oneshot wid] }, .ok,
              some (Waiter.oneshot wid), some timeout⟩

/-- What can happen to the one-shot a `flush` caller waits on. -/
inductive WaiterEvent where
  | fired
  | senderDropped
  | silent
deriving DecidableEq, Repr

/-- Second half of `Client::flush`: the blocking `pong.recv()` call.  The
receive takes no timeout; `none` means the call is still blocked (no value
has arrived and the sender is still alive). -/
def flushRecv : WaiterEvent → Option OpResult
  | .fired => some .ok
  | .senderDropped => some (.err .connectionReset)
  | .silent => none

/-- Rust `Client::close`: set the shutdown flag; on the first close, best-effort
UNSUB every subscription, flush the writer, drop all subscriptions and clear
the pending-PONG queue. -/
def closeFn (c : ClientState) : ClientState :=
  if c.shutdown then { c with shutdown := true }
  else
    let writer2 :=
      match c.write.writer with
      | none => none
      | some w =>
          some ((w.app ((c.read.subscriptions.map
            (fun p => encodeOp (.unsubOp p.1 none))).flatten)).flushW)
    { c with
        shutdown := true
        write.writer := writer2
        read.subscriptions := []
        read.pongs := [] }

/-- Outcome of `reconnect`: the new state, the returned result, the SUB ops
encoded onto the new connection, the waiters fired on success, and the
waiters taken but dropped on failure. -/
structure ReconnOut where
  state : ClientState
  res : OpResult
  announced : List ClientOp
  fired : List Waiter
  dropped : List Waiter
deriving DecidableEq, Repr

/-- Rust `Client::reconnect(server_info, writer)`: fail when shut down; drop the
current writer; re-announce every live subscription with its original SID,
subject and queue group (`subEncOk` = those encodes succeed); take the
pending PONGs; clear the reconnect buffer; write the buffered bytes to the
new writer and flush it (`writeAllRes` / `flushRes` outcomes); on success
install the server info and the new writer and fire every taken PONG. -/
def reconnectFn (c : ClientState) (info : ServerInfo) (subEncOk : Bool)
    (writeAllRes flushRes : Option IOErrorKind) : ReconnOut :=
  if c.shutdown then ⟨c, .err .notConnected, [], [], []⟩
  else
    let c1 := { c with write.writer := none }
    let subOps := c.read.subscriptions.map
      (fun p => ClientOp.subOp p.2.subject p.2.queueGroup p.1)
    if !subEncOk then ⟨c1, .err .otherErr, [], [], []⟩
    else
      let w0 : Writer := ⟨[], (subOps.map encodeOp).flatten⟩
      let taken := c1.read.pongs
      let cb := c1.write.buffer.clearB
      let c2 := { c1 with read.pongs := [], write.buffer := cb.2 }
      match writeAllRes with
      | some e => ⟨c2, .err e, subOps, [], taken⟩
      | none =>
          let w1 := w0.app cb.1
          match flushRes with
          | some e => ⟨c2, .err e, subOps, [], taken⟩
          | none =>
              ⟨{ c2 with serverInfo := info, write.writer := some w1.flushW },
                .ok, subOps, taken, []⟩

/-- Outcome of the heartbeat's timeout branch: the new state and whether a
PING frame was encoded into the writer. -/
structure HbOut where
  state : ClientState
  pingEncoded : Bool
deriving DecidableEq, Repr

/-- The timeout branch of the heartbeat/flusher worker.  `idle` is the
`last_active.elapsed() > PING_INTERVAL` comparison; `encOk` the best-effort
PING encode; `flushRes` the writer flush outcome.  `pings_out` is a `u8`. -/
def heartbeatTimeoutFn (c : ClientState) (idle : Bool) (encOk : Bool)
    (flushRes : Option IOErrorKind) : HbOut :=
  if c.read.pingsOut ≥ MAX_PINGS_OUT then
    ⟨{ c with write.writer := none, read.pongs := [] }, false⟩
  else if idle then
    let c1 := { c with
        read.pingsOut := (c.read.pingsOut + 1) % 256
        read.pongs := c.read.pongs ++ [Waiter.kicker] }
    match c1.write.writer with
    | none => ⟨c1, false⟩
    | some w =>
        let w1 := if encOk then w.app (encodeOp .pingOp) else w
        match flushRes with
        | some _ => ⟨{ c1 with write.writer := none, read.pongs := [] }, encOk⟩
        | none => ⟨{ c1 with write.writer := some w1.flushW }, encOk⟩
  else ⟨c, false⟩

/-- The signal branch of the heartbeat/flusher worker: flush the writer; on
failure shut the stream, drop the writer and clear the PONGs. -/
def heartbeatSignalFn (c : ClientState) (flushRes : Option IOErrorKind) :
    ClientState :=
  match c.write.writer with
  | none => c
  | some w =>
      match flushRes with
      | some _ => { c with write.writer := none, read.pongs := [] }
      | none => { c with write.writer := some w.flushW }

/-- Dispatcher on a server PONG: reset `pings_out`; if a writer is present,
pop the head of the pending-PONG queue and fire it. -/
def dispatchPongFn (c : ClientState) : ClientState × Option Waiter :=
  let c1 := { c with read.pingsOut := 0 }
  match c1.write.writer with
  | none => (c1, none)
  | some _ =>
      match c1.read.pongs with
      | [] => (c1, none)
      | p :: rest => ({ c1 with read.pongs := rest }, some p)

/-- Dispatcher on a server PING: encode a PONG if connected; on encode
failure the error propagates out of `dispatch` (the writer is dropped later
by the supervisor, modelled as a separate step). -/
def dispatchPingFn (c : ClientState) (encRes : Option IOErrorKind) : ClientState :=
  match c.write.writer with
  | none => c
  | some w =>
      match encRes with
      | some _ => c
      | none => { c with write.writer := some (w.app (encodeOp .pongOp)) }

/-- Dispatcher on a server INFO: replace the server-info snapshot. -/
def dispatchInfoFn (c : ClientState) (info : ServerInfo) : ClientState :=
  { c with serverInfo := info }

/-- The supervisor dropping the writer after `dispatch` returns an error. -/
def supervisorDropFn (c : ClientState) : ClientState :=
  { c with write.writer := none }

/-- The supervisor clearing `pings_out` at the bottom of its loop. -/
def resetPingsFn (c : ClientState) : ClientState :=
  { c with read.pingsOut := 0 }

/-- One step of any thread against the shared state, with all of its inputs
and observed I/O outcomes. -/
inductive Act where
  | pubA (subject : String) (replyTo : Option String)
      (headers : Option (List (String × String))) (msg : List Nat)
      (encRes : Option IOErrorKind)
  | tryPubA (subject : String) (replyTo : Option String)
      (headers : Option (List (String × String))) (msg : List Nat)
      (lockFree : Bool) (encRes : Option IOErrorKind)
  | subA (subject : String) (queueGroup : Option String) (encOk : Bool)
  | unsubA (sid : Nat) (encRes : Option IOErrorKind)
  | flushEnqA (timeout wid : Nat) (pingRes : Option IOErrorKind)
  | closeA
  | reconnA (info : ServerInfo) (subEncOk : Bool)
      (writeAllRes flushRes : Option IOErrorKind)
  | hbTimeoutA (idle encOk : Bool) (flushRes : Option IOErrorKind)
  | hbSignalA (flushRes : Option IOErrorKind)
  | srvPongA
  | srvPingA (encRes : Option IOErrorKind)
  | srvInfoA (info : ServerInfo)
  | supDropA
  | resetPingsA
deriving DecidableEq, Repr

/-- The state reached after one step. -/
def stepAct (c : ClientState) : Act → ClientState
  | .pubA s r h m e => (publishFn c s r h m e).state
  | .tryPubA s r h m l e => (tryPublishFn c s r h m l e).state
  | .subA s q ok => (subscribeFn c s q ok).state
  | .unsubA sid e => (unsubscribeFn c sid e).state
  | .flushEnqA t w p => (flushEnqFn c t w p).state
  | .closeA => closeFn c
  | .reconnA i so wa fr => (reconnectFn c i so wa fr).state
  | .hbTimeoutA i eo fr => (heartbeatTimeoutFn c i eo fr).state
  | .hbSignalA fr => heartbeatSignalFn c fr
  | .srvPongA => (dispatchPongFn c).1
  | .srvPingA e => dispatchPingFn c e
  | .srvInfoA i => dispatchInfoFn c i
  | .supDropA => supervisorDropFn c
  | .resetPingsA => resetPingsFn c

/-- The state reached after a sequence of steps. -/
def runActs (c : ClientState) : List Act → ClientState
  | [] => c
  | a :: rest => runActs (stepAct c a) rest

lemma headersCond_false {hs : Option (List (String × String))} {si : ServerInfo}
    (h : ¬(hs.isSome = true ∧ si.headers = false)) :
    (hs.isSome && !si.headers) = false := by
  cases hh : hs.isSome <;> cases hsi : si.headers <;> simp_all

/-- C3: `publish(subject, reply?, headers?, payload)` fails with
invalid-input if headers are supplied and `server_info.headers` is false;
fails with not-connected if the client is shut down; if the writer is present
it encodes the PUB/HPUB into the writer and signals the flush-kicker; if the
writer is absent it encodes into the Reconnect Buffer and marks it flushed,
failing with buffer-full when the buffer cannot hold the frame; in all other
cases it returns success. -/
theorem claim_C3_publish_contract (c : ClientState) (subject : String)
    (replyTo : Option String) (headers : Option (List (String × String)))
    (msg : List Nat) (encRes : Option IOErrorKind) :
    (headers.isSome = true → c.serverInfo.headers = false →
      publishFn c subject replyTo headers msg encRes = ⟨c, .err .invalidInput, false⟩) ∧
    (¬(headers.isSome = true ∧ c.serverInfo.headers = false) → c.shutdown = true →
      publishFn c subject replyTo headers msg encRes = ⟨c, .err .notConnected, false⟩) ∧
    (∀ w, ¬(headers.isSome = true ∧ c.serverInfo.headers = false) →
      c.shutdown = false → c.write.writer = some w → c.write.buffer.written = 0 →
      encRes = none →
      publishFn c subject replyTo headers msg encRes =
        ⟨{ c with
            write.writer := some (w.app (encodeOp (mkPubOp subject replyTo headers msg))) },
          .ok, true⟩) ∧
    (¬(headers.isSome = true ∧ c.serverInfo.headers = false) → c.shutdown = false →
      c.write.writer = none →
      ¬(c.write.buffer.bytes.length - c.write.buffer.written <
          (encodeOp (mkPubOp subject replyTo headers msg)).length) →
      publishFn c subject replyTo headers msg encRes =
        ⟨{ c with
            write.buffer :=
              ((c.write.buffer.writeB (encodeOp (mkPubOp subject replyTo headers msg))).1).flushB },
          .ok, false⟩ ∧
      (publishFn c subject replyTo headers msg encRes).state.write.buffer.flushed =
        (publishFn c subject replyTo headers msg encRes).state.write.buffer.written) ∧
    (¬(headers.isSome = true ∧ c.serverInfo.headers = false) → c.shutdown = false →
      c.write.writer = none →
      (c.write.buffer.bytes.length - c.write.buffer.written <
          (encodeOp (mkPubOp subject replyTo headers msg)).length) →
      (publishFn c subject replyTo headers msg encRes).res = .err .bufferFull ∧
      (publishFn c subject replyTo headers msg encRes).state.write.buffer.written =
        c.write.buffer.bytes.length) := by
  refine ⟨?_, ?_, ?_, ?_, ?_⟩
  · intro h1 h2
    simp [publishFn, h1, h2]
  · intro hhd hsd
    simp [publishFn, headersCond_false hhd, hsd]
  · intro w hhd hsd hw hwr0 henc
    simp [publishFn, headersCond_false hhd, hsd, hw, hwr0, henc]
  · intro hhd hsd hw hfit
    have heq : publishFn c subject replyTo headers msg encRes =
        ⟨{ c with
            write.buffer :=
              ((c.write.buffer.writeB (encodeOp (mkPubOp subject replyTo headers msg))).1).flushB },
          .ok, false⟩ := by
      simp [publishFn, headersCond_false hhd, hsd, hw, Buffer.writeB, hfit]
    refine ⟨heq, ?_⟩
    rw [heq]
    simp [Buffer.flushB]
  · intro hhd hsd hw hfit
    have heq : publishFn c subject replyTo headers msg encRes =
        ⟨{ c with
            write.buffer :=
              (c.write.buffer.writeB (encodeOp (mkPubOp subject replyTo headers msg))).1 },
          .err .bufferFull, false⟩ := by
      simp [publishFn, headersCond_false hhd, hsd, hw, Buffer.writeB, hfit]
    rw [heq]
    simp [Buffer.writeB, hfit]

/-- Witness for C3 at a concrete input: in a connected state with an empty
reconnect buffer and headers omitted, publish encodes into the writer, kicks
the flusher and succeeds. -/
theorem claim_C3_publish_contract_witness :
    publishFn ⟨⟨some ⟨[], []⟩, Buffer.new 4, 1⟩, ⟨[], [], 0⟩, ⟨false⟩, false⟩
        "x" none none [7] none =
      ⟨⟨⟨some ⟨[], encodeOp (mkPubOp "x" none none [7])⟩, Buffer.new 4, 1⟩,
        ⟨[], [], 0⟩, ⟨false⟩, false⟩, .ok, true⟩ :=
  (claim_C3_publish_contract
      ⟨⟨some ⟨[], []⟩, Buffer.new 4, 1⟩, ⟨[], [], 0⟩, ⟨false⟩, false⟩
      "x" none none [7] none).2.2.1 ⟨[], []⟩
    (by simp) rfl rfl rfl rfl

/-- A concrete connected state used to refute C2: one live subscription,
one pending PONG waiter, an active writer. -/
def stC2 : ClientState :=
  ⟨⟨some ⟨[], []⟩, Buffer.new 0, 5⟩, ⟨[(1, ⟨"s", none⟩)], [Waiter.oneshot 9], 0⟩,
    ⟨true⟩, false⟩

/-- Counterexample to C2 as stated: `unsubscribe` hits an encode I/O failure
on the active writer, returns the error, and yet the writer is kept and the
pending-PONG queue is untouched — the local-disconnect action is not
performed. -/
theorem claim_C2_counterexample :
    (unsubscribeFn stC2 1 (some .otherErr)).res = .err .otherErr ∧
    (unsubscribeFn stC2 1 (some .otherErr)).state.write.writer.isSome = true ∧
    (unsubscribeFn stC2 1 (some .otherErr)).state.read.pongs = [Waiter.oneshot 9] := by
  decide

/-- C2 (amended): `publish` and `try_publish` perform the local-disconnect
action (writer set to absent, pending-PONG queue cleared, error returned) on
an encode I/O failure to the active writer; `subscribe` ignores encode
failures (best-effort, writer kept); `unsubscribe` and `flush` return the
encode error to the caller without dropping the writer or clearing the
pending PONGs. -/
theorem claim_C2_local_disconnect_sites (c : ClientState) (subject : String)
    (replyTo : Option String) (qg : Option String)
    (headers : Option (List (String × String))) (msg : List Nat)
    (e : IOErrorKind) (sid t wid : Nat) (w : Writer) :
    (¬(headers.isSome = true ∧ c.serverInfo.headers = false) → c.shutdown = false →
      c.write.writer = some w → c.write.buffer.written = 0 →
      publishFn c subject replyTo headers msg (some e) =
        ⟨{ c with write.writer := none, read.pongs := [] }, .err e, true⟩) ∧
    (c.shutdown = false → c.write.writer = some w →
      ¬(BUF_CAPACITY - w.pend.length < estimateFn subject replyTo headers msg) →
      tryPublishFn c subject replyTo headers msg true (some e) =
        ⟨{ c with write.writer := none, read.pongs := [] }, some (.err e), true⟩) ∧
    (c.shutdown = false → c.write.writer = some w →
      (subscribeFn c subject qg false).state.write.writer = some w ∧
      (subscribeFn c subject qg false).state.read.pongs = c.read.pongs ∧
      (subscribeFn c subject qg false).res = .ok c.write.nextSid) ∧
    (hasSub c.read.subscriptions sid = true → c.write.writer = some w →
      (unsubscribeFn c sid (some e)).res = .err e ∧
      (unsubscribeFn c sid (some e)).state.write.writer = some w ∧
      (unsubscribeFn c sid (some e)).state.read.pongs = c.read.pongs) ∧
    (c.shutdown = false → c.write.writer = some w →
      flushEnqFn c t wid (some e) = ⟨c, .err e, none, some t⟩) := by
  refine ⟨?_, ?_, ?_, ?_, ?_⟩
  · intro hhd hsd hw hwr0
    simp [publishFn, headersCond_false hhd, hsd, hw, hwr0]
  · intro hsd hw hsp
    simp [tryPublishFn, hsd, hw, hsp]
  · intro hsd hw
    simp [subscribeFn, hsd, hw]
  · intro hmem hw
    simp [unsubscribeFn, hmem, hw]
  · intro hsd hw
    simp [flushEnqFn, hsd, hw]

/-- Witness for the amended C2 at a concrete input: in `stC2`, a publish
whose encode fails drops the writer, clears the pending PONGs and returns
the error. -/
theorem claim_C2_local_disconnect_sites_witness :
    publishFn stC2 "x" none none [] (some .otherErr) =
      ⟨{ stC2 with write.writer := none, read.pongs := [] }, .err .otherErr, true⟩ :=
  (claim_C2_local_disconnect_sites stC2 "x" none none none [] .otherErr 1 0 0
      ⟨[], []⟩).1 (by simp) rfl rfl rfl

/-- A connected state whose server does not advertise header support. -/
def stC5 : ClientState :=
  ⟨⟨some ⟨[], []⟩, Buffer.new 0, 1⟩, ⟨[], [], 0⟩, ⟨false⟩, false⟩

/-- Counterexample to C5 as stated: with headers supplied and
`server_info.headers = false`, `try_publish` returns `Some(Ok(()))` while
`publish` with the same arguments in the same state fails with
invalid-input — the contained result does not equal publish's result. -/
theorem claim_C5_counterexample :
    (tryPublishFn stC5 "x" none (some [("K", "V")]) [] true none).res = some .ok ∧
    (publishFn stC5 "x" none (some [("K", "V")]) [] none).res = .err .invalidInput := by
  decide

/-- C5 (amended): `try_publish` returns none exactly when the client is not
shut down and either the write lock is contended or, with a writer present,
the writer's buffered bytes plus the estimate
`1024 + |subject| + |reply| + |payload| + Σ(|k|+|v|+3)` would exceed
`BUF_CAP = 32 KiB`; whenever it returns some, the contained result and the
state change equal publish's for the same arguments in the same state —
except that `try_publish` omits the headers-supported check (with headers
supplied and `server_info.headers = false` it proceeds to encode the HPUB
instead of failing with invalid-input), the stated agreement holding whenever
the headers check passes and a present writer implies an empty reconnect
buffer (an invariant of every reachable state). -/
theorem claim_C5_try_publish_refines_publish (c : ClientState) (subject : String)
    (replyTo : Option String) (headers : Option (List (String × String)))
    (msg : List Nat) (lockFree : Bool) (encRes : Option IOErrorKind) :
    ((tryPublishFn c subject replyTo headers msg lockFree encRes).res = none ↔
      c.shutdown = false ∧ (lockFree = false ∨ ∃ w, c.write.writer = some w ∧
        BUF_CAPACITY - w.pend.length < estimateFn subject replyTo headers msg)) ∧
    (¬(headers.isSome = true ∧ c.serverInfo.headers = false) →
      (∀ w, c.write.writer = some w → c.write.buffer.written = 0) →
      ∀ r, (tryPublishFn c subject replyTo headers msg lockFree encRes).res = some r →
        publishFn c subject replyTo headers msg encRes =
          ⟨(tryPublishFn c subject replyTo headers msg lockFree encRes).state, r,
            (tryPublishFn c subject replyTo headers msg lockFree encRes).kicked⟩) := by
  constructor
  · by_cases hsd : c.shutdown = true
    · simp [tryPublishFn, hsd]
    · replace hsd : c.shutdown = false := by simpa using hsd
      cases hlf : lockFree with
      | false => simp [tryPublishFn, hsd, hlf]
      | true =>
          cases hw : c.write.writer with
          | none =>
              simp only [tryPublishFn, hsd, hlf, hw]
              rcases hwr : (c.write.buffer.writeB
                  (encodeOp (mkPubOp subject replyTo headers msg))).2 with e | n <;>
                simp [hwr, hsd]
          | some w =>
              by_cases hsp : BUF_CAPACITY - w.pend.length <
                  estimateFn subject replyTo headers msg
              · simp [tryPublishFn, hsd, hlf, hw, hsp]
              · simp only [tryPublishFn, hsd, hlf, hw]
                rcases henc : encRes with _ | e <;> simp [hsp, henc, hsd, hw]
  · intro hhd hwb r hr
    have hcond := headersCond_false hhd
    by_cases hsd : c.shutdown = true
    · simp [tryPublishFn, hsd] at hr
      subst hr
      simp [publishFn, tryPublishFn, hcond, hsd]
    · replace hsd : c.shutdown = false := by simpa using hsd
      cases lockFree with
      | false => simp [tryPublishFn, hsd] at hr
      | true =>
          cases hw : c.write.writer with
          | none =>
              rcases hwr : (c.write.buffer.writeB
                  (encodeOp (mkPubOp subject replyTo headers msg))).2 with e | n
              · simp [tryPublishFn, hsd, hw, hwr] at hr
                subst hr
                simp [publishFn, tryPublishFn, hcond, hsd, hw, hwr]
              · simp [tryPublishFn, hsd, hw, hwr] at hr
                subst hr
                simp [publishFn, tryPublishFn, hcond, hsd, hw, hwr]
          | some w =>
              have hwr0 : c.write.buffer.written = 0 := hwb w hw
              by_cases hsp : BUF_CAPACITY - w.pend.length <
                  estimateFn subject replyTo headers msg
              · simp [tryPublishFn, hsd, hw, hsp] at hr
              · cases encRes with
                | none =>
                    simp [tryPublishFn, hsd, hw, hsp] at hr
                    subst hr
                    simp [publishFn, tryPublishFn, hcond, hsd, hw, hsp, hwr0]
                | some e =>
                    simp [tryPublishFn, hsd, hw, hsp] at hr
                    subst hr
                    simp [publishFn, tryPublishFn, hcond, hsd, hw, hsp, hwr0]

/-- Witness for the amended C5 at concrete inputs: in a connected state with
header support, `try_publish` returns some success and `publish` agrees; and
the none-characterization holds for a contended lock. -/
theorem claim_C5_try_publish_refines_publish_witness :
    publishFn ⟨⟨some ⟨[], []⟩, Buffer.new 0, 1⟩, ⟨[], [], 0⟩, ⟨true⟩, false⟩
        "x" none none [] none =
      ⟨(tryPublishFn ⟨⟨some ⟨[], []⟩, Buffer.new 0, 1⟩, ⟨[], [], 0⟩, ⟨true⟩, false⟩
          "x" none none [] true none).state, .ok,
        (tryPublishFn ⟨⟨some ⟨[], []⟩, Buffer.new 0, 1⟩, ⟨[], [], 0⟩, ⟨true⟩, false⟩
          "x" none none [] true none).kicked⟩ ∧
    ((tryPublishFn ⟨⟨some ⟨[], []⟩, Buffer.new 0, 1⟩, ⟨[], [], 0⟩, ⟨true⟩, false⟩
        "x" none none [] false none).res = none ↔
      (⟨⟨some ⟨[], []⟩, Buffer.new 0, 1⟩, ⟨[], [], 0⟩, ⟨true⟩, false⟩ :
          ClientState).shutdown = false ∧
      (false = false ∨ ∃ w, (⟨⟨some ⟨[], []⟩, Buffer.new 0, 1⟩, ⟨[], [], 0⟩,
          ⟨true⟩, false⟩ : ClientState).write.writer = some w ∧
        BUF_CAPACITY - w.pend.length < estimateFn "x" none none [])) :=
  ⟨(claim_C5_try_publish_refines_publish _ "x" none none [] true none).2
      (by simp) (by intro w hw; rfl) .ok (by decide),
    (claim_C5_try_publish_refines_publish _ "x" none none [] false none).1⟩

/-- Counterexample to C6 as stated: the one-shot receive at the end of
`flush` is a plain blocking `recv()` with no timeout, so with the server
silent and the waiter's sender alive it does not return at all — in
particular it does not return the connection-reset error at the timeout. -/
theorem claim_C6_counterexample :
    flushRecv WaiterEvent.silent = none ∧
    flushRecv WaiterEvent.silent ≠ some (OpResult.err .connectionReset) := by
  decide

/-- C6 (amended): the timeout passed to `flush(timeout)` is used only as the
socket write deadline for the PING write of that flush (set when a writer is
present, absent otherwise), and the state, result and enqueued waiter of the
lock-holding phase do not depend on it; the final one-shot receive has no
timeout: it yields success when the waiter fires, connection-reset when the
sender is dropped, and stays blocked while the server is silent. -/
theorem claim_C6_flush_timeout (c : ClientState) (t1 t2 wid : Nat)
    (pingRes : Option IOErrorKind) :
    (flushRecv .fired = some .ok ∧
     flushRecv .senderDropped = some (.err .connectionReset) ∧
     flushRecv .silent = none) ∧
    (c.shutdown = false → ∀ w, c.write.writer = some w →
      (flushEnqFn c t1 wid pingRes).pingDeadline = some t1) ∧
    (c.write.writer = none → (flushEnqFn c t1 wid pingRes).pingDeadline = none) ∧
    ((flushEnqFn c t1 wid pingRes).state = (flushEnqFn c t2 wid pingRes).state ∧
     (flushEnqFn c t1 wid pingRes).res = (flushEnqFn c t2 wid pingRes).res ∧
     (flushEnqFn c t1 wid pingRes).waiter = (flushEnqFn c t2 wid pingRes).waiter) := by
  refine ⟨⟨rfl, rfl, rfl⟩, ?_, ?_, ?_⟩
  · intro hsd w hw
    cases hp : pingRes <;> simp [flushEnqFn, hsd, hw, hp]
  · intro hw
    by_cases hsd : c.shutdown = true <;> simp_all [flushEnqFn]
  · by_cases hsd : c.shutdown = true
    · simp [flushEnqFn, hsd]
    · replace hsd : c.shutdown = false := by simpa using hsd
      cases hw : c.write.writer with
      | none => simp [flushEnqFn, hsd, hw]
      | some w => cases hp : pingRes <;> simp [flushEnqFn, hsd, hw, hp]

/-- Witness for the amended C6 at a concrete input: in a connected state the
PING write deadline equals the requested timeout. -/
theorem claim_C6_flush_timeout_witness :
    (flushEnqFn ⟨⟨some ⟨[], []⟩, Buffer.new 0, 1⟩, ⟨[], [], 0⟩, ⟨true⟩, false⟩
      50 3 none).pingDeadline = some 50 :=
  (claim_C6_flush_timeout ⟨⟨some ⟨[], []⟩, Buffer.new 0, 1⟩, ⟨[], [], 0⟩, ⟨true⟩, false⟩
      50 7 3 none).2.1 rfl ⟨[], []⟩ rfl

/-- The SID carried by a SUB frame, if any. -/
def subSid : ClientOp → Option Nat
  | .subOp _ _ sid => some sid
  | _ => none

/-- C1: after a forced reconnect, the client re-announces every live
subscription on the new connection with its original SID, subject and queue
group (the SIDs announced are exactly the live SIDs at the moment of
reconnect); the bytes written to the new writer before any new publish are
the SUB announcements followed by exactly the buffered bytes captured from
the Reconnect Buffer's flushed prefix at disconnect time; and on success the
new server_info and writer are installed and every previously pending PONG
waiter is fired. -/
theorem claim_C1_reconnect_success (c : ClientState) (info : ServerInfo)
    (hsd : c.shutdown = false) :
    (reconnectFn c info true none none).res = .ok ∧
    (reconnectFn c info true none none).announced =
      c.read.subscriptions.map (fun p => ClientOp.subOp p.2.subject p.2.queueGroup p.1) ∧
    (reconnectFn c info true none none).announced.map subSid =
      c.read.subscriptions.map (fun p => some p.1) ∧
    ((reconnectFn c info true none none).state.write.writer.map Writer.contents) =
      some ((((reconnectFn c info true none none).announced.map encodeOp).flatten) ++
        c.write.buffer.bytes.take c.write.buffer.flushed) ∧
    (reconnectFn c info true none none).state.serverInfo = info ∧
    (reconnectFn c info true none none).fired = c.read.pongs ∧
    (reconnectFn c info true none none).state.read.pongs = [] := by
  have hres : reconnectFn c info true none none =
      ⟨{ c with
          write.writer := some (Writer.flushW
            (Writer.app
              ⟨[], ((c.read.subscriptions.map
                (fun p => ClientOp.subOp p.2.subject p.2.queueGroup p.1)).map
                  encodeOp).flatten⟩
              (c.write.buffer.bytes.take c.write.buffer.flushed)))
          write.buffer := (c.write.buffer.clearB).2
          read.pongs := []
          serverInfo := info },
        .ok,
        c.read.subscriptions.map (fun p => ClientOp.subOp p.2.subject p.2.queueGroup p.1),
        c.read.pongs, []⟩ := by
    simp [reconnectFn, hsd, Buffer.clearB]
  rw [hres]
  refine ⟨rfl, rfl, ?_, ?_, rfl, rfl, rfl⟩
  · rw [List.map_map]
    rfl
  · simp [Writer.flushW, Writer.app, Writer.contents]

/-- Witness for C1 at a concrete input: a disconnected state with one live
subscription (SID 7), one pending PONG waiter and two flushed buffered
bytes; reconnect succeeds, announces SID 7 with its subject and queue group,
replays exactly the flushed prefix after the SUB bytes, installs the new
server info and fires the waiter. -/
theorem claim_C1_reconnect_success_witness :
    (reconnectFn
        ⟨⟨none, ⟨[41, 42, 0], 2, 2⟩, 8⟩,
          ⟨[(7, ⟨"foo", some "q"⟩)], [Waiter.oneshot 3], 1⟩, ⟨false⟩, false⟩
        ⟨true⟩ true none none).res = .ok ∧
    (reconnectFn
        ⟨⟨none, ⟨[41, 42, 0], 2, 2⟩, 8⟩,
          ⟨[(7, ⟨"foo", some "q"⟩)], [Waiter.oneshot 3], 1⟩, ⟨false⟩, false⟩
        ⟨true⟩ true none none).announced = [ClientOp.subOp "foo" (some "q") 7] ∧
    ((reconnectFn
        ⟨⟨none, ⟨[41, 42, 0], 2, 2⟩, 8⟩,
          ⟨[(7, ⟨"foo", some "q"⟩)], [Waiter.oneshot 3], 1⟩, ⟨false⟩, false⟩
        ⟨true⟩ true none none).state.write.writer.map Writer.contents) =
      some (encodeOp (ClientOp.subOp "foo" (some "q") 7) ++ [41, 42]) ∧
    (reconnectFn
        ⟨⟨none, ⟨[41, 42, 0], 2, 2⟩, 8⟩,
          ⟨[(7, ⟨"foo", some "q"⟩)], [Waiter.oneshot 3], 1⟩, ⟨false⟩, false⟩
        ⟨true⟩ true none none).fired = [Waiter.oneshot 3] := by
  obtain ⟨h1, h2, _, h4, _, h6, _⟩ :=
    claim_C1_reconnect_success
      ⟨⟨none, ⟨[41, 42, 0], 2, 2⟩, 8⟩,
        ⟨[(7, ⟨"foo", some "q"⟩)], [Waiter.oneshot 3], 1⟩, ⟨false⟩, false⟩
      ⟨true⟩ rfl
  refine ⟨h1, by rw [h2]; rfl, ?_, h6⟩
  rw [h4, h2]
  simp [Buffer.clearB]

/-- C10: reconnect is not atomic on error — if writing the replayed buffered
bytes to the new writer, or the subsequent flush, fails after the
pending-PONG queue has been taken and the Reconnect Buffer cleared, then the
queue and buffer are left empty, no writer is installed, the server info is
unchanged, the taken PONG waiters are dropped (so every in-flight flush's
receive yields the connection-reset error), and the buffered publishes are
discarded without ever being sent. -/
theorem claim_C10_reconnect_failure (c : ClientState) (info : ServerInfo)
    (e : IOErrorKind) (writeAllRes flushRes : Option IOErrorKind)
    (hsd : c.shutdown = false)
    (hfail : writeAllRes = some e ∨ (writeAllRes = none ∧ flushRes = some e)) :
    (reconnectFn c info true writeAllRes flushRes).res = .err e ∧
    (reconnectFn c info true writeAllRes flushRes).state.read.pongs = [] ∧
    (reconnectFn c info true writeAllRes flushRes).state.write.buffer.written = 0 ∧
    (reconnectFn c info true writeAllRes flushRes).state.write.buffer.flushed = 0 ∧
    (reconnectFn c info true writeAllRes flushRes).state.write.writer = none ∧
    (reconnectFn c info true writeAllRes flushRes).state.serverInfo = c.serverInfo ∧
    (reconnectFn c info true writeAllRes flushRes).dropped = c.read.pongs ∧
    (reconnectFn c info true writeAllRes flushRes).fired = [] ∧
    flushRecv .senderDropped = some (.err .connectionReset) := by
  rcases hfail with hwa | ⟨hwa, hfr⟩
  · subst hwa
    simp [reconnectFn, hsd, Buffer.clearB, flushRecv]
  · subst hwa; subst hfr
    simp [reconnectFn, hsd, Buffer.clearB, flushRecv]

/-- Witness for C10 at a concrete input: same state as the C1 witness, but
the replay write fails; the pongs and buffer are left empty, the waiter is
dropped and its flush receive yields connection-reset. -/
theorem claim_C10_reconnect_failure_witness :
    (reconnectFn
        ⟨⟨none, ⟨[41, 42, 0], 2, 2⟩, 8⟩,
          ⟨[(7, ⟨"foo", some "q"⟩)], [Waiter.oneshot 3], 1⟩, ⟨false⟩, false⟩
        ⟨true⟩ true (some .otherErr) none).res = .err .otherErr ∧
    (reconnectFn
        ⟨⟨none, ⟨[41, 42, 0], 2, 2⟩, 8⟩,
          ⟨[(7, ⟨"foo", some "q"⟩)], [Waiter.oneshot 3], 1⟩, ⟨false⟩, false⟩
        ⟨true⟩ true (some .otherErr) none).dropped = [Waiter.oneshot 3] ∧
    (reconnectFn
        ⟨⟨none, ⟨[41, 42, 0], 2, 2⟩, 8⟩,
          ⟨[(7, ⟨"foo", some "q"⟩)], [Waiter.oneshot 3], 1⟩, ⟨false⟩, false⟩
        ⟨true⟩ true (some .otherErr) none).state.write.writer = none := by
  obtain ⟨h1, _, _, _, h5, _, h7, _, _⟩ :=
    claim_C10_reconnect_failure
      ⟨⟨none, ⟨[41, 42, 0], 2, 2⟩, 8⟩,
        ⟨[(7, ⟨"foo", some "q"⟩)], [Waiter.oneshot 3], 1⟩, ⟨false⟩, false⟩
      ⟨true⟩ .otherErr (some .otherErr) none rfl (Or.inl rfl)
  exact ⟨h1, h7, h5⟩

/-- Writer/buffer invariant: whenever the active writer is present, the
reconnect buffer is empty. -/
def InvWB (c : ClientState) : Prop :=
  ∀ w, c.write.writer = some w → c.write.buffer.written = 0

/-- Liveness-counter invariant: `pings_out` never exceeds `MAX_PINGS_OUT`. -/
def InvPings (c : ClientState) : Prop :=
  c.read.pingsOut ≤ MAX_PINGS_OUT

lemma stepAct_invWB (c : ClientState) (a : Act) (hc : InvWB c) :
    InvWB (stepAct c a) := by
  cases a with
  | pubA s r h m e =>
      intro w hw
      simp only [stepAct, publishFn] at hw ⊢
      repeat' (first | split at hw | split)
      all_goals (try simp_all [InvWB])
  | tryPubA s r h m l e =>
      intro w hw
      simp only [stepAct, tryPublishFn] at hw ⊢
      repeat' (first | split at hw | split)
      all_goals (try simp_all [InvWB])
  | subA s q ok =>
      intro w hw
      simp only [stepAct, subscribeFn] at hw ⊢
      repeat' (first | split at hw | split)
      all_goals (try simp_all [InvWB])
  | unsubA sid e =>
      intro w hw
      simp only [stepAct, unsubscribeFn] at hw ⊢
      repeat' (first | split at hw | split)
      all_goals (try simp_all [InvWB])
  | flushEnqA t wid p =>
      intro w hw
      simp only [stepAct, flushEnqFn] at hw ⊢
      repeat' (first | split at hw | split)
      all_goals (try simp_all [InvWB])
  | closeA =>
      intro w hw
      simp only [stepAct, closeFn] at hw ⊢
      repeat' (first | split at hw | split)
      all_goals (try simp_all [InvWB])
  | reconnA i so wa fr =>
      intro w hw
      simp only [stepAct, reconnectFn] at hw ⊢
      repeat' (first | split at hw | split)
      all_goals (try simp_all [InvWB, Buffer.clearB])
  | hbTimeoutA i eo fr =>
      intro w hw
      simp only [stepAct, heartbeatTimeoutFn] at hw ⊢
      repeat' (first | split at hw | split)
      all_goals (try simp_all [InvWB])
  | hbSignalA fr =>
      intro w hw
      simp only [stepAct, heartbeatSignalFn] at hw ⊢
      repeat' (first | split at hw | split)
      all_goals (try simp_all [InvWB])
  | srvPongA =>
      intro w hw
      simp only [stepAct, dispatchPongFn] at hw ⊢
      repeat' (first | split at hw | split)
      all_goals (try simp_all [InvWB])
  | srvPingA e =>
      intro w hw
      simp only [stepAct, dispatchPingFn] at hw ⊢
      repeat' (first | split at hw | split)
      all_goals (try simp_all [InvWB])
  | srvInfoA i =>
      intro w hw
      simp only [stepAct, dispatchInfoFn] at hw ⊢
      simp_all [InvWB]
  | supDropA =>
      intro w hw
      simp only [stepAct, supervisorDropFn] at hw ⊢
      simp_all [InvWB]
  | resetPingsA =>
      intro w hw
      simp only [stepAct, resetPingsFn] at hw ⊢
      simp_all [InvWB]

lemma runActs_invWB (acts : List Act) :
    ∀ c : ClientState, InvWB c → InvWB (runActs c acts) := by
  induction acts with
  | nil => intro c h; exact h
  | cons a rest ih =>
      intro c h
      exact ih _ (stepAct_invWB c a h)

lemma initState_invWB (n : Nat) : InvWB (initState n) := by
  intro w hw
  simp [initState] at hw

lemma stepAct_invPings (c : ClientState) (a : Act) (hc : InvPings c) :
    InvPings (stepAct c a) := by
  unfold InvPings MAX_PINGS_OUT at hc ⊢
  cases a with
  | pubA s r h m e =>
      simp only [stepAct, publishFn]
      repeat' split
      all_goals (try simp_all)
  | tryPubA s r h m l e =>
      simp only [stepAct, tryPublishFn]
      repeat' split
      all_goals (try simp_all)
  | subA s q ok =>
      simp only [stepAct, subscribeFn]
      repeat' split
      all_goals (try simp_all)
  | unsubA sid e =>
      simp only [stepAct, unsubscribeFn]
      repeat' split
      all_goals (try simp_all)
  | flushEnqA t wid p =>
      simp only [stepAct, flushEnqFn]
      repeat' split
      all_goals (try simp_all)
  | closeA =>
      simp only [stepAct, closeFn]
      repeat' split
      all_goals (try simp_all)
  | reconnA i so wa fr =>
      simp only [stepAct, reconnectFn]
      repeat' split
      all_goals (try simp_all)
  | hbTimeoutA i eo fr =>
      simp only [stepAct, heartbeatTimeoutFn, MAX_PINGS_OUT]
      repeat' split
      all_goals (try simp_all)
      all_goals omega
  | hbSignalA fr =>
      simp only [stepAct, heartbeatSignalFn]
      repeat' split
      all_goals (try simp_all)
  | srvPongA =>
      simp only [stepAct, dispatchPongFn]
      repeat' split
      all_goals (try simp_all)
  | srvPingA e =>
      simp only [stepAct, dispatchPingFn]
      repeat' split
      all_goals (try simp_all)
  | srvInfoA i =>
      simp only [stepAct, dispatchInfoFn]
      simp_all
  | supDropA =>
      simp only [stepAct, supervisorDropFn]
      simp_all
  | resetPingsA =>
      simp only [stepAct, resetPingsFn]
      simp_all

lemma runActs_invPings (acts : List Act) :
    ∀ c : ClientState, InvPings c → InvPings (runActs c acts) := by
  induction acts with
  | nil => intro c h; exact h
  | cons a rest ih =>
      intro c h
      exact ih _ (stepAct_invPings c a h)

lemma initState_invPings (n : Nat) : InvPings (initState n) := by
  simp [InvPings, initState]

lemma publishFn_no_assert (c : ClientState) (s : String) (r : Option String)
    (h : Option (List (String × String))) (m : List Nat) (e : Option IOErrorKind)
    (hc : InvWB c) : (publishFn c s r h m e).res ≠ .assertFail := by
  simp only [publishFn]
  repeat' split
  all_goals (try simp_all [InvWB])

/-- C9: in every reachable state, if the active writer is present then the
Reconnect Buffer is empty (`written = 0`); consequently the assertion
`assert_eq!(written, 0)` on publish's connected path never fails in a
reachable state, and the reconnect step that installs a writer always clears
the buffer first. -/
theorem claim_C9_writer_implies_empty_buffer :
    (∀ (n : Nat) (acts : List Act) (w : Writer),
      (runActs (initState n) acts).write.writer = some w →
      (runActs (initState n) acts).write.buffer.written = 0) ∧
    (∀ (n : Nat) (acts : List Act) (s : String) (r : Option String)
        (h : Option (List (String × String))) (m : List Nat)
        (e : Option IOErrorKind),
      (publishFn (runActs (initState n) acts) s r h m e).res ≠ .assertFail) ∧
    (∀ (c : ClientState) (info : ServerInfo), c.shutdown = false →
      (reconnectFn c info true none none).state.write.buffer.written = 0 ∧
      (reconnectFn c info true none none).state.write.buffer.flushed = 0 ∧
      ((reconnectFn c info true none none).state.write.writer).isSome = true) := by
  refine ⟨?_, ?_, ?_⟩
  · intro n acts
    exact runActs_invWB acts _ (initState_invWB n)
  · intro n acts s r h m e
    exact publishFn_no_assert _ s r h m e (runActs_invWB acts _ (initState_invWB n))
  · intro c info hsd
    simp [reconnectFn, hsd, Buffer.clearB]

/-- Witness for C9 at concrete inputs: after a successful reconnect from the
initial state the writer is present and the buffer counter is 0, and publish
in the initial state does not hit the assertion. -/
theorem claim_C9_writer_implies_empty_buffer_witness :
    (runActs (initState 4) [Act.reconnA ⟨true⟩ true none none]).write.buffer.written = 0 ∧
    (publishFn (runActs (initState 4) []) "x" none none [] none).res ≠ .assertFail :=
  ⟨claim_C9_writer_implies_empty_buffer.1 4 [Act.reconnA ⟨true⟩ true none none]
      ⟨[], []⟩ (by decide),
    claim_C9_writer_implies_empty_buffer.2.1 4 [] "x" none none [] none⟩

/-- Counterexample to C7 as stated: in the initial (disconnected, idle)
state with `pings_out = 0 < MAX_PINGS_OUT`, the heartbeat timeout branch
increments `pings_out` and pushes the flush-kicker as PONG waiter, but
encodes no PING — the claim's unconditional "encodes and flushes a PING" is
false when the writer is absent. -/
theorem claim_C7_counterexample :
    (initState 0).read.pingsOut < MAX_PINGS_OUT ∧
    (heartbeatTimeoutFn (initState 0) true true none).state.read.pingsOut = 1 ∧
    (heartbeatTimeoutFn (initState 0) true true none).state.read.pongs =
      [Waiter.oneshot 0, Waiter.kicker] ∧
    (heartbeatTimeoutFn (initState 0) true true none).pingEncoded = false := by
  decide

/-- C7 (amended): when the Heartbeat/Flusher's receive times out, if
`pings_out ≥ MAX_PINGS_OUT` (=2) it drops the writer and clears the
pending-PONG queue; otherwise, if `last_active` is older than
`PING_INTERVAL`, it increments `pings_out` and pushes the flush-kicker
sender onto the pending-PONG queue as the PONG waiter, and — only if a
writer is present — encodes (best-effort) and flushes a PING, performing the
drop-writer/clear-PONGs action if that flush fails; if not idle nothing
changes; and `pings_out` never exceeds `MAX_PINGS_OUT` in any reachable
state. -/
theorem claim_C7_heartbeat_timeout (c : ClientState) (idle encOk : Bool)
    (flushRes : Option IOErrorKind) :
    (c.read.pingsOut ≥ MAX_PINGS_OUT →
      heartbeatTimeoutFn c idle encOk flushRes =
        ⟨{ c with write.writer := none, read.pongs := [] }, false⟩) ∧
    (c.read.pingsOut < MAX_PINGS_OUT → idle = true → c.write.writer = none →
      heartbeatTimeoutFn c idle encOk flushRes =
        ⟨{ c with
            read.pingsOut := c.read.pingsOut + 1
            read.pongs := c.read.pongs ++ [Waiter.kicker] }, false⟩) ∧
    (∀ w, c.read.pingsOut < MAX_PINGS_OUT → idle = true →
      c.write.writer = some w → flushRes = none →
      heartbeatTimeoutFn c idle encOk flushRes =
        ⟨{ c with
            read.pingsOut := c.read.pingsOut + 1
            read.pongs := c.read.pongs ++ [Waiter.kicker]
            write.writer := some ((if encOk then w.app (encodeOp .pingOp) else w).flushW) },
          encOk⟩) ∧
    (∀ w e, c.read.pingsOut < MAX_PINGS_OUT → idle = true →
      c.write.writer = some w → flushRes = some e →
      heartbeatTimeoutFn c idle encOk flushRes =
        ⟨{ c with
            read.pingsOut := c.read.pingsOut + 1
            read.pongs := []
            write.writer := none }, encOk⟩) ∧
    (c.read.pingsOut < MAX_PINGS_OUT → idle = false →
      heartbeatTimeoutFn c idle encOk flushRes = ⟨c, false⟩) ∧
    (∀ (n : Nat) (acts : List Act),
      (runActs (initState n) acts).read.pingsOut ≤ MAX_PINGS_OUT) := by
  refine ⟨?_, ?_, ?_, ?_, ?_, ?_⟩
  · intro hge
    simp [heartbeatTimeoutFn, hge]
  · intro hlt hidle hw
    have hm : (c.read.pingsOut + 1) % 256 = c.read.pingsOut + 1 :=
      Nat.mod_eq_of_lt (by unfold MAX_PINGS_OUT at hlt; omega)
    simp [heartbeatTimeoutFn, Nat.not_le.mpr hlt, hidle, hw, hm]
  · intro w hlt hidle hw hfr
    have hm : (c.read.pingsOut + 1) % 256 = c.read.pingsOut + 1 :=
      Nat.mod_eq_of_lt (by unfold MAX_PINGS_OUT at hlt; omega)
    simp [heartbeatTimeoutFn, Nat.not_le.mpr hlt, hidle, hw, hfr, hm]
  · intro w e hlt hidle hw hfr
    have hm : (c.read.pingsOut + 1) % 256 = c.read.pingsOut + 1 :=
      Nat.mod_eq_of_lt (by unfold MAX_PINGS_OUT at hlt; omega)
    simp [heartbeatTimeoutFn, Nat.not_le.mpr hlt, hidle, hw, hfr, hm]
  · intro hlt hidle
    simp [heartbeatTimeoutFn, Nat.not_le.mpr hlt, hidle]
  · intro n acts
    exact runActs_invPings acts _ (initState_invPings n)

/-- Witness for the amended C7 at a concrete input: in a connected idle
state with `pings_out = 1`, the timeout branch bumps `pings_out` to 2,
enqueues the kicker as PONG waiter, encodes a PING and flushes it. -/
theorem claim_C7_heartbeat_timeout_witness :
    heartbeatTimeoutFn ⟨⟨some ⟨[], []⟩, Buffer.new 0, 1⟩, ⟨[], [], 1⟩, ⟨true⟩, false⟩
        true true none =
      ⟨⟨⟨some ⟨encodeOp .pingOp, []⟩, Buffer.new 0, 1⟩,
        ⟨[], [Waiter.kicker], 2⟩, ⟨true⟩, false⟩, true⟩ := by
  have h := (claim_C7_heartbeat_timeout
      ⟨⟨some ⟨[], []⟩, Buffer.new 0, 1⟩, ⟨[], [], 1⟩, ⟨true⟩, false⟩
      true true none).2.2.1 ⟨[], []⟩ (by decide) rfl rfl rfl
  rw [h]
  simp [Writer.app, Writer.flushW]

/-- The sids returned by one step (nonempty only for a successful
subscribe). -/
def stepSids (c : ClientState) : Act → List Nat
  | .subA s q ok =>
      match (subscribeFn c s q ok).res with
      | .ok sid => [sid]
      | .err _ => []
  | _ => []

/-- All sids returned by the subscribes of a run, in call order. -/
def runSids (c : ClientState) : List Act → List Nat
  | [] => []
  | a :: rest => stepSids c a ++ runSids (stepAct c a) rest

/-- The number of successful subscribes in a run. -/
def okSubs (c : ClientState) : List Act → Nat
  | [] => 0
  | a :: rest => (stepSids c a).length + okSubs (stepAct c a) rest

lemma stepAct_nextSid (c : ClientState) (a : Act) :
    ((stepAct c a).write.nextSid = c.write.nextSid ∧ stepSids c a = []) ∨
    ((stepAct c a).write.nextSid = (c.write.nextSid + 1) % U64_MOD ∧
      stepSids c a = [c.write.nextSid]) := by
  cases a with
  | subA s q ok =>
      by_cases hsd : c.shutdown = true
      · left
        simp [stepAct, stepSids, subscribeFn, hsd]
      · right
        replace hsd : c.shutdown = false := by simpa using hsd
        cases hw : c.write.writer <;>
          simp [stepAct, stepSids, subscribeFn, hsd, hw]
  | pubA s r h m e =>
      left
      refine ⟨?_, rfl⟩
      simp only [stepAct, publishFn]
      repeat' split
      all_goals rfl
  | tryPubA s r h m l e =>
      left
      refine ⟨?_, rfl⟩
      simp only [stepAct, tryPublishFn]
      repeat' split
      all_goals rfl
  | unsubA sid e =>
      left
      refine ⟨?_, rfl⟩
      simp only [stepAct, unsubscribeFn]
      repeat' split
      all_goals rfl
  | flushEnqA t wid p =>
      left
      refine ⟨?_, rfl⟩
      simp only [stepAct, flushEnqFn]
      repeat' split
      all_goals rfl
  | closeA =>
      left
      refine ⟨?_, rfl⟩
      simp only [stepAct, closeFn]
      repeat' split
      all_goals rfl
  | reconnA i so wa fr =>
      left
      refine ⟨?_, rfl⟩
      simp only [stepAct, reconnectFn]
      repeat' split
      all_goals rfl
  | hbTimeoutA i eo fr =>
      left
      refine ⟨?_, rfl⟩
      simp only [stepAct, heartbeatTimeoutFn]
      repeat' split
      all_goals rfl
  | hbSignalA fr =>
      left
      refine ⟨?_, rfl⟩
      simp only [stepAct, heartbeatSignalFn]
      repeat' split
      all_goals rfl
  | srvPongA =>
      left
      refine ⟨?_, rfl⟩
      simp only [stepAct, dispatchPongFn]
      repeat' split
      all_goals rfl
  | srvPingA e =>
      left
      refine ⟨?_, rfl⟩
      simp only [stepAct, dispatchPingFn]
      repeat' split
      all_goals rfl
  | srvInfoA i =>
      left
      exact ⟨rfl, rfl⟩
  | supDropA =>
      left
      exact ⟨rfl, rfl⟩
  | resetPingsA =>
      left
      exact ⟨rfl, rfl⟩

lemma runSids_mono (acts : List Act) :
    ∀ c : ClientState, c.write.nextSid + okSubs c acts < U64_MOD →
      List.Pairwise (· < ·) (runSids c acts) ∧
      ∀ x ∈ runSids c acts, c.write.nextSid ≤ x := by
  induction acts with
  | nil =>
      intro c _
      simp [runSids]
  | cons a rest ih =>
      intro c hbound
      have hok : okSubs c (a :: rest) =
          (stepSids c a).length + okSubs (stepAct c a) rest := rfl
      have hrun : runSids c (a :: rest) =
          stepSids c a ++ runSids (stepAct c a) rest := rfl
      rcases stepAct_nextSid c a with ⟨hns, hsids⟩ | ⟨hns, hsids⟩
      · have hb2 : (stepAct c a).write.nextSid + okSubs (stepAct c a) rest <
            U64_MOD := by
          rw [hns]
          rw [hok, hsids] at hbound
          simpa using hbound
        obtain ⟨hp, hge⟩ := ih (stepAct c a) hb2
        rw [hrun, hsids, List.nil_append]
        refine ⟨hp, fun x hx => ?_⟩
        have := hge x hx
        rw [hns] at this
        exact this
      · rw [hok, hsids] at hbound
        simp only [List.length_singleton] at hbound
        have hlt : c.write.nextSid + 1 < U64_MOD := by omega
        have hmod : (c.write.nextSid + 1) % U64_MOD = c.write.nextSid + 1 :=
          Nat.mod_eq_of_lt hlt
        have hb2 : (stepAct c a).write.nextSid + okSubs (stepAct c a) rest <
            U64_MOD := by
          rw [hns, hmod]
          omega
        obtain ⟨hp, hge⟩ := ih (stepAct c a) hb2
        rw [hrun, hsids, List.singleton_append]
        constructor
        · rw [List.pairwise_cons]
          refine ⟨fun x hx => ?_, hp⟩
          have := hge x hx
          rw [hns, hmod] at this
          omega
        · intro x hx
          rcases List.mem_cons.mp hx with hx | hx
          · omega
          · have := hge x hx
            rw [hns, hmod] at this
            omega

/-- C8: SIDs are strictly monotonic over a client's lifetime — for any run
from the initial state (with fewer than `2^64 - 1` successful subscribes, so
the `u64` counter cannot wrap), the sequence of SIDs returned by the
subscribe calls is strictly increasing, hence no SID is ever reused. -/
theorem claim_C8_sid_monotonic (n : Nat) (acts : List Act)
    (hbound : okSubs (initState n) acts < U64_MOD - 1) :
    List.Pairwise (· < ·) (runSids (initState n) acts) ∧
    (runSids (initState n) acts).Nodup := by
  have hns : (initState n).write.nextSid = 1 := rfl
  have hpos : 0 < U64_MOD := by norm_num [U64_MOD]
  have h := runSids_mono acts (initState n) (by rw [hns]; omega)
  exact ⟨h.1, List.Pairwise.imp (fun hlt => Nat.ne_of_lt hlt) h.1⟩

/-- Witness for C8 at a concrete input: two subscribes from the initial
state return sids 1 and 2, strictly increasing and distinct. -/
theorem claim_C8_sid_monotonic_witness :
    List.Pairwise (· < ·)
      (runSids (initState 0) [Act.subA "a" none true, Act.subA "b" none true]) ∧
    (runSids (initState 0) [Act.subA "a" none true, Act.subA "b" none true]).Nodup :=
  claim_C8_sid_monotonic 0 [Act.subA "a" none true, Act.subA "b" none true]
    (by decide)

end NatsClient
